import Mathlib

/-!
Verification of `NotebookKernelExecution` (src/kernels/kernelExecution.ts).

The class mediates cell/code execution against a kernel session.  We embed
each handler as a function producing the ordered list of operations it
invokes on the per-document `CellExecutionQueue`, and the async-generator
consumer loop of `executeCode` as a small-step transition system.
-/

namespace KernelExecution

/-- An operation invoked on a `CellExecutionQueue` (or on a direct
`CodeExecution`).  `cancel b` is `queue.cancel(forced = b)`; calling
`cancel()` with the argument omitted passes `undefined`, which the callee's
boolean tests treat as `false`, so it is modelled as `cancel false`.
`waitForCompletion swallowed` records whether errors from the wait are
swallowed (`.catch(noop)` / `.catch(() => false)`) or re-thrown. -/
inductive QueueOp where
  | cancel (forceful : Bool)
  | waitForCompletion (errorsSwallowed : Bool)
  | getOrCreateQueue
  | queueCell
  | resumeCell
  | queueCode
  | createDirectExecution
  | startOnSession
  deriving DecidableEq, Repr

/-- The two inspection flags of a `CellExecutionQueue` read by
`NotebookKernelExecution` (`isEmpty` and `failed`). -/
structure QueueFlags where
  isEmpty : Bool
  failed : Bool
  deriving DecidableEq, Repr

/-- The `workspace.onDidCloseNotebookDocument` handler registered in
`getOrCreateCellExecutionQueue` (kernelExecution.ts lines 369-380):
when the closed document is the queue's document and
`!newCellExecutionQueue.failed || !newCellExecutionQueue.isEmpty`,
it awaits `newCellExecutionQueue.cancel(true)`. -/
def onDidCloseNotebookDocument (isTargetDocument : Bool) (q : QueueFlags) :
    List QueueOp :=
  if isTargetDocument then
    if !q.failed || !q.isEmpty then [QueueOp.cancel true] else []
  else []

/-- A `CellExecutionQueue` as seen by `getOrCreateCellExecutionQueue`:
an identity, the two inspection flags, and the session promise it was
constructed with. -/
structure QueueModel where
  id : Nat
  isEmpty : Bool
  failed : Bool
  sessionId : Nat
  deriving DecidableEq, Repr

/-- Result of `getOrCreateCellExecutionQueue`: either the existing queue
instance is returned, or a brand-new `CellExecutionQueue` bound to the
given session promise is constructed and stored. -/
inductive GetQueueResult where
  | reused (q : QueueModel)
  | created (sessionId : Nat)
  deriving DecidableEq, Repr

/-- `getOrCreateCellExecutionQueue` (kernelExecution.ts lines 353-383):
re-use the existing queue if `existingExecutionQueue && !isEmpty &&
!failed`, otherwise construct a new `CellExecutionQueue` bound to
`sessionPromise` and store it in `documentExecutions`. -/
def getOrCreateCellExecutionQueue (existing : Option QueueModel)
    (sessionId : Nat) : GetQueueResult :=
  match existing with
  | some q =>
      if !q.isEmpty && !q.failed then GetQueueResult.reused q
      else GetQueueResult.created sessionId
  | none => GetQueueResult.created sessionId

/-- `onWillInterrupt` (kernelExecution.ts lines 311-325): returns early when
there is no queue and the connection kind is not `connectToLiveRemoteKernel`;
when a queue exists it awaits `executionQueue.cancel()` and then
`executionQueue.waitForCompletion().catch(noop)`. -/
def onWillInterrupt (queueExists isConnectToLiveRemote : Bool) :
    List QueueOp :=
  if !queueExists && !isConnectToLiveRemote then []
  else if queueExists then
    [QueueOp.cancel false, QueueOp.waitForCompletion true]
  else []

/-- Outcome of `onWillRestart`: the operations chained on the queue, and
whether the handler awaited that chain before returning. -/
structure RestartOutcome where
  ops : List QueueOp
  drainAwaited : Bool
  deriving DecidableEq, Repr

/-- `onWillRestart` (kernelExecution.ts lines 336-352): resolves
`session := sessionPromise ? await sessionPromise.catch(() => undefined) :
undefined`; builds `pendingCells := executionQueue ?
executionQueue.cancel(true).then(() => waitForCompletion().catch(noop)) :
Promise.resolve()`; awaits `pendingCells` exactly when `!session`.
`sessionProvided` models `sessionPromise` being passed, `sessionResolves`
models the promise resolving rather than rejecting. -/
def onWillRestart (queueExists sessionProvided sessionResolves : Bool) :
    RestartOutcome :=
  let sessionObtained := sessionProvided && sessionResolves
  { ops :=
      if queueExists then
        [QueueOp.cancel true, QueueOp.waitForCompletion true]
      else []
    drainAwaited := !sessionObtained }

/-- `onWillCancel` (kernelExecution.ts lines 326-331): when a queue exists,
awaits `executionQueue.cancel(true)`; otherwise does nothing. -/
def onWillCancel (queueExists : Bool) : List QueueOp :=
  if queueExists then [QueueOp.cancel true] else []

/-- The kind of a notebook cell, as tested by
`cell.kind == NotebookCellKind.Markup`. -/
inductive CellKind where
  | markup
  | code
  deriving DecidableEq, Repr

/-- Result of an async entry point: the queue operations performed, the
settled outcome of the returned promise, and the success flag logged by the
handler afterwards (if it got that far). -/
structure ExecResult (E : Type) where
  ops : List QueueOp
  outcome : Except E Unit
  loggedSuccess : Option Bool
  deriving Repr

/-- `executeCell` (kernelExecution.ts lines 157-193): returns immediately
for markup cells; otherwise awaits the session promise, obtains the queue,
queues the cell and awaits `waitForCompletion(cell)` inside a
`try / catch (ex) { success = false; throw ex; } finally { log; telemetry }`
block, so a rejection from the wait is re-thrown to the caller. -/
def executeCell {E : Type} (kind : CellKind)
    (sessionResult waitResult : Except E Unit) : ExecResult E :=
  match kind with
  | CellKind.markup => { ops := [], outcome := Except.ok (), loggedSuccess := none }
  | CellKind.code =>
      match sessionResult with
      | Except.error e => { ops := [], outcome := Except.error e, loggedSuccess := none }
      | Except.ok () =>
          match waitResult with
          | Except.ok () =>
              { ops := [QueueOp.getOrCreateQueue, QueueOp.queueCell,
                        QueueOp.waitForCompletion false]
                outcome := Except.ok ()
                loggedSuccess := some true }
          | Except.error e =>
              { ops := [QueueOp.getOrCreateQueue, QueueOp.queueCell,
                        QueueOp.waitForCompletion false]
                outcome := Except.error e
                loggedSuccess := some false }

/-- `resumeCellExecution` (kernelExecution.ts lines 133-156): returns
immediately for markup cells; otherwise obtains the queue, calls
`executionQueue.resumeCell(cell, info)` and awaits
`waitForCompletion(cell).then(() => true).catch(() => false)`
(errors swallowed into a success flag). -/
def resumeCellExecution (kind : CellKind) : List QueueOp :=
  match kind with
  | CellKind.markup => []
  | CellKind.code =>
      [QueueOp.getOrCreateQueue, QueueOp.resumeCell,
       QueueOp.waitForCompletion true]

/-- `JVSC_EXTENSION_ID` from platform/common/constants: the identifier of
the Jupyter extension itself. -/
def JVSC_EXTENSION_ID : String := "ms-toolsai.jupyter"

/-- `POWER_TOYS_EXTENSION_ID` from platform/common/constants: the
identifier of the Jupyter power-toys extension. -/
def POWER_TOYS_EXTENSION_ID : String := "ms-toolsai.vscode-jupyter-powertoys"

/-- The dispatch at the top of `executeCode` (kernelExecution.ts lines
194-239): for `extensionId === JVSC_EXTENSION_ID || extensionId ===
POWER_TOYS_EXTENSION_ID` the execution is `CodeExecution.fromCode(code,
extensionId)` started directly on the resolved session (never queued);
otherwise it is `executionQueue.queueCode(code, extensionId, token)` on the
queue obtained from `getOrCreateCellExecutionQueue`. -/
def executeCodeDispatch (extensionId : String) : List QueueOp :=
  if extensionId == JVSC_EXTENSION_ID || extensionId == POWER_TOYS_EXTENSION_ID then
    [QueueOp.createDirectExecution, QueueOp.startOnSession]
  else
    [QueueOp.getOrCreateQueue, QueueOp.queueCode]

/-- Position of the async generator's consumer loop in `executeCode`
(kernelExecution.ts lines 263-303): `waiting` while the loop is live
(awaiting the race or draining), `exited` once `break` has run. -/
inductive ConsumerPos where
  | waiting
  | exited
  deriving DecidableEq, Repr

/-- State of the `executeCode` streaming loop over output deltas of type
`α`: `buffer` is the `outputs` array, `yielded` the deltas already yielded
by the generator, `emitted` the full emission history, `done` whether
`result.result` has settled (`done.completed`). -/
structure GenState (α : Type) where
  buffer : List α
  yielded : List α
  emitted : List α
  done : Bool
  pos : ConsumerPos
  deriving Repr

/-- Initial state of the streaming loop: nothing buffered, nothing yielded,
result pending, consumer loop live. -/
def initGen (α : Type) : GenState α :=
  { buffer := [], yielded := [], emitted := [], done := false,
    pos := ConsumerPos.waiting }

/-- One interleaving step of the `executeCode` streaming loop:
`emit` is the `onDidEmitOutput` listener pushing onto `outputs` (the
listener is disposed once `result.result` settles, so it requires
`done = false`); `settle` is `result.result` settling; `consumeYield` is
one iteration of `while (outputs.length) { yield outputs.shift() }`;
`exitLoop` is `if (done.completed) break` taken after the drain emptied the
buffer. -/
inductive GenStep {α : Type} : GenState α → GenState α → Prop where
  | emit (o : α) (s : GenState α) (hd : s.done = false)
      (hp : s.pos = ConsumerPos.waiting) :
      GenStep s { s with buffer := s.buffer ++ [o],
                         emitted := s.emitted ++ [o] }
  | settle (s : GenState α) (hp : s.pos = ConsumerPos.waiting) :
      GenStep s { s with done := true }
  | consumeYield (o : α) (rest : List α) (s : GenState α)
      (hb : s.buffer = o :: rest) (hp : s.pos = ConsumerPos.waiting) :
      GenStep s { s with buffer := rest, yielded := s.yielded ++ [o] }
  | exitLoop (s : GenState α) (hb : s.buffer = []) (hd : s.done = true)
      (hp : s.pos = ConsumerPos.waiting) :
      GenStep s { s with pos := ConsumerPos.exited }

/-- States of the streaming loop reachable from the initial state under any
interleaving of emission, settlement and consumption. -/
inductive GenReach {α : Type} : GenState α → Prop where
  | init : GenReach (initGen α)
  | step {s t : GenState α} (hs : GenReach s) (hst : GenStep s t) : GenReach t

/-- A kernel-side event observed by `NotebookKernelExecution`'s
constructor wiring (kernelExecution.ts lines 78-91): `started`/`restarted`
reset the visible execution count; `cellStateChange m idle ord` is an
`onDidChangeNotebookCellExecutionState` event where `m` is
`e.cell.notebook === kernel.notebook`, `idle` is
`e.state === NotebookCellExecutionState.Idle` and `ord` is
`e.cell.executionSummary?.executionOrder` with `0` standing for an absent
or zero (falsy) value; `other` is any event touching none of these
handlers. -/
inductive KernelEvent where
  | started
  | restarted
  | cellStateChange (matchesNotebook isIdle : Bool) (ord : Nat)
  | other
  deriving DecidableEq, Repr

/-- Effect of one kernel event on `_visibleExecutionCount`
(kernelExecution.ts lines 78-91): started/restarted set it to 0; a
cell-state-change event with matching notebook, `Idle` state and a truthy
`executionOrder` raises it to `max` of itself and the order; everything
else leaves it unchanged. -/
def stepCount (c : Nat) : KernelEvent → Nat
  | KernelEvent.started => 0
  | KernelEvent.restarted => 0
  | KernelEvent.cellStateChange m idle ord =>
      if m && idle && ord != 0 then max c ord else c
  | KernelEvent.other => c

/-- `_visibleExecutionCount` after a sequence of kernel events, starting
from count `c` (the field is initialised to 0). -/
def runCount (c : Nat) (evs : List KernelEvent) : Nat :=
  evs.foldl stepCount c

/-- A concrete final state of the streaming loop: one delta `0` was
emitted, the result settled, the delta was yielded and the loop exited. -/
def genFinalExample : GenState Nat :=
  { buffer := [], yielded := [0], emitted := [0], done := true,
    pos := ConsumerPos.exited }

/-- For every event other than `started`/`restarted`, one step of the
visible-execution-count update never decreases the count. -/
theorem stepCount_mono (c : Nat) (e : KernelEvent)
    (h1 : e ≠ KernelEvent.started) (h2 : e ≠ KernelEvent.restarted) :
    c ≤ stepCount c e := by
  cases e with
  | started => exact absurd rfl h1
  | restarted => exact absurd rfl h2
  | cellStateChange m idle ord =>
      simp only [stepCount]
      split
      · exact le_max_left c ord
      · exact le_refl c
  | other => exact le_refl c

/-- C1 counterexample: for an empty, non-failed queue the claim says the
close handler must not cancel, but the code's condition
`!failed || !isEmpty` is true there, so `cancel(true)` is invoked. -/
theorem close_cancel_claim_counterexample :
    onDidCloseNotebookDocument true { isEmpty := true, failed := false } =
      [QueueOp.cancel true] ∧
    ¬(({ isEmpty := true, failed := false } : QueueFlags).isEmpty = false ∨
      ({ isEmpty := true, failed := false } : QueueFlags).failed = true) := by
  decide

/-- C1 (amended): on a notebook-close event, `cancel(forceful=true)` is
invoked exactly when the closed document is the queue's document and the
queue is not failed or not empty; only an already-failed and empty queue
is skipped. -/
theorem close_cancel_iff (b : Bool) (q : QueueFlags) :
    QueueOp.cancel true ∈ onDidCloseNotebookDocument b q ↔
      b = true ∧ (q.failed = false ∨ q.isEmpty = false) := by
  rcases q with ⟨e, f⟩
  cases b <;> cases e <;> cases f <;> decide

/-- C1 amended theorem instantiated at a live target-document queue. -/
theorem close_cancel_iff_witness :
    QueueOp.cancel true ∈
        onDidCloseNotebookDocument true { isEmpty := false, failed := false } ↔
      true = true ∧
        (({ isEmpty := false, failed := false } : QueueFlags).failed = false ∨
         ({ isEmpty := false, failed := false } : QueueFlags).isEmpty = false) :=
  close_cancel_iff true { isEmpty := false, failed := false }

/-- C2 counterexample: an existing queue that is empty and not failed
satisfies the claim's reuse condition (non-empty or not failed), yet the
code constructs a new queue instead of reusing it. -/
theorem queue_reuse_claim_counterexample :
    (({ id := 0, isEmpty := true, failed := false, sessionId := 5 } :
        QueueModel).isEmpty = false ∨
     ({ id := 0, isEmpty := true, failed := false, sessionId := 5 } :
        QueueModel).failed = false) ∧
    getOrCreateCellExecutionQueue
        (some { id := 0, isEmpty := true, failed := false, sessionId := 5 }) 7 ≠
      GetQueueResult.reused
        { id := 0, isEmpty := true, failed := false, sessionId := 5 } := by
  decide

/-- C2 (amended): the existing queue instance is returned exactly when it
is non-empty AND not failed; otherwise (including for every failed queue,
which is therefore never returned again) a brand-new queue bound to the
fresh session promise is constructed; with no existing queue a new one is
always constructed. -/
theorem queue_reuse_iff (q : QueueModel) (sid : Nat) :
    (getOrCreateCellExecutionQueue (some q) sid = GetQueueResult.reused q ↔
      q.isEmpty = false ∧ q.failed = false) ∧
    (getOrCreateCellExecutionQueue (some q) sid = GetQueueResult.reused q ∨
     getOrCreateCellExecutionQueue (some q) sid = GetQueueResult.created sid) ∧
    getOrCreateCellExecutionQueue none sid = GetQueueResult.created sid := by
  rcases q with ⟨i, e, f, s⟩
  cases e <;> cases f <;>
    simp [getOrCreateCellExecutionQueue]

/-- C2 amended theorem instantiated at a failed queue: it is not reused and
a new queue bound to the fresh session promise is created. -/
theorem queue_reuse_iff_witness :
    (getOrCreateCellExecutionQueue
        (some { id := 1, isEmpty := false, failed := true, sessionId := 2 }) 3 =
       GetQueueResult.reused
         { id := 1, isEmpty := false, failed := true, sessionId := 2 } ↔
      ({ id := 1, isEmpty := false, failed := true, sessionId := 2 } :
          QueueModel).isEmpty = false ∧
      ({ id := 1, isEmpty := false, failed := true, sessionId := 2 } :
          QueueModel).failed = false) ∧
    (getOrCreateCellExecutionQueue
        (some { id := 1, isEmpty := false, failed := true, sessionId := 2 }) 3 =
       GetQueueResult.reused
         { id := 1, isEmpty := false, failed := true, sessionId := 2 } ∨
     getOrCreateCellExecutionQueue
        (some { id := 1, isEmpty := false, failed := true, sessionId := 2 }) 3 =
       GetQueueResult.created 3) ∧
    getOrCreateCellExecutionQueue none 3 = GetQueueResult.created 3 :=
  queue_reuse_iff { id := 1, isEmpty := false, failed := true, sessionId := 2 } 3

/-- C3: on interrupt with an existing queue, the handler performs exactly
`cancel(forceful=false)` followed by `waitForCompletion` with errors
swallowed — never the wait before the cancel. -/
theorem interrupt_cancel_then_wait (live : Bool) :
    onWillInterrupt true live =
      [QueueOp.cancel false, QueueOp.waitForCompletion true] := by
  cases live <;> decide

/-- C3 theorem instantiated at a non-live-remote connection. -/
theorem interrupt_cancel_then_wait_witness :
    onWillInterrupt true false =
      [QueueOp.cancel false, QueueOp.waitForCompletion true] :=
  interrupt_cancel_then_wait false

/-- C4: on restart with an existing queue, regardless of whether the new
session promise was provided or resolved, the handler chains
`cancel(forceful=true)` then `waitForCompletion` with errors swallowed;
and it awaits that chain before returning exactly when no session was
obtained. -/
theorem restart_cancel_drain (sp sr : Bool) :
    (onWillRestart true sp sr).ops =
      [QueueOp.cancel true, QueueOp.waitForCompletion true] ∧
    (onWillRestart true sp sr).drainAwaited = !(sp && sr) := by
  cases sp <;> cases sr <;> decide

/-- C4 theorem instantiated at a rejected session promise: the cancel-then-
drain chain is awaited before the handler returns. -/
theorem restart_cancel_drain_witness :
    (onWillRestart true true false).ops =
      [QueueOp.cancel true, QueueOp.waitForCompletion true] ∧
    (onWillRestart true true false).drainAwaited = !(true && false) :=
  restart_cancel_drain true false

/-- C5: on hard cancel / teardown the handler performs exactly
`cancel(forceful=true)` when a queue exists, nothing otherwise, and never
invokes `waitForCompletion`. -/
theorem hard_cancel_no_wait (b s : Bool) :
    onWillCancel true = [QueueOp.cancel true] ∧
    onWillCancel false = [] ∧
    QueueOp.waitForCompletion s ∉ onWillCancel b := by
  cases b <;> cases s <;> decide

/-- C5 theorem instantiated at an existing queue. -/
theorem hard_cancel_no_wait_witness :
    onWillCancel true = [QueueOp.cancel true] ∧
    onWillCancel false = [] ∧
    QueueOp.waitForCompletion true ∉ onWillCancel true :=
  hard_cancel_no_wait true true

/-- C7: for a code cell whose session resolved, `executeCell` settles with
exactly the outcome of `waitForCompletion` for that cell — a rejection is
re-thrown to the caller, not swallowed — and the wait is invoked with
errors not swallowed. -/
theorem executeCell_rethrows_wait_error {E : Type} (w : Except E Unit) :
    (executeCell CellKind.code (Except.ok ()) w).outcome = w ∧
    QueueOp.waitForCompletion false ∈
      (executeCell CellKind.code (Except.ok ()) w).ops := by
  cases w with
  | ok u => cases u; exact ⟨rfl, by simp [executeCell]⟩
  | error e => exact ⟨rfl, by simp [executeCell]⟩

/-- C7 theorem instantiated at a rejecting wait: the error propagates. -/
theorem executeCell_rethrows_wait_error_witness :
    (executeCell CellKind.code (Except.ok ()) (Except.error "boom")).outcome =
      (Except.error "boom" : Except String Unit) ∧
    QueueOp.waitForCompletion false ∈
      (executeCell CellKind.code (Except.ok ())
        (Except.error "boom" : Except String Unit)).ops :=
  executeCell_rethrows_wait_error (Except.error "boom")

/-- C8: for a markup cell, `resumeCellExecution` performs no queue
operations, and `executeCell` performs no queue operations and resolves
successfully regardless of the session or wait outcomes. -/
theorem markup_skips_queue {E : Type} (sessionResult waitResult : Except E Unit) :
    resumeCellExecution CellKind.markup = [] ∧
    (executeCell CellKind.markup sessionResult waitResult).ops = [] ∧
    (executeCell CellKind.markup sessionResult waitResult).outcome =
      Except.ok () :=
  ⟨rfl, rfl, rfl⟩

/-- C8 theorem instantiated at an erroring session and wait. -/
theorem markup_skips_queue_witness :
    resumeCellExecution CellKind.markup = [] ∧
    (executeCell CellKind.markup (Except.error "s") (Except.error "w")).ops = [] ∧
    (executeCell CellKind.markup (Except.error "s")
        (Except.error "w" : Except String Unit)).outcome = Except.ok () :=
  markup_skips_queue (Except.error "s") (Except.error "w")

/-- C9: `executeCode` bypasses the queue (direct `CodeExecution` started on
the resolved session) exactly for the two built-in extension identifiers,
and enqueues via `queueCode` on the document's queue exactly for every
other extension identifier. -/
theorem builtin_bypasses_queue (ext : String) :
    (executeCodeDispatch ext =
        [QueueOp.createDirectExecution, QueueOp.startOnSession] ↔
      (ext = JVSC_EXTENSION_ID ∨ ext = POWER_TOYS_EXTENSION_ID)) ∧
    (executeCodeDispatch ext = [QueueOp.getOrCreateQueue, QueueOp.queueCode] ↔
      ¬(ext = JVSC_EXTENSION_ID ∨ ext = POWER_TOYS_EXTENSION_ID)) := by
  by_cases h : ext = JVSC_EXTENSION_ID ∨ ext = POWER_TOYS_EXTENSION_ID
  · rcases h with h | h <;> subst h <;>
      simp [executeCodeDispatch, JVSC_EXTENSION_ID, POWER_TOYS_EXTENSION_ID]
  · push_neg at h
    simp [executeCodeDispatch, h.1, h.2]

/-- C9 theorem instantiated at the built-in Jupyter extension identifier. -/
theorem builtin_bypasses_queue_witness :
    (executeCodeDispatch "ms-toolsai.jupyter" =
        [QueueOp.createDirectExecution, QueueOp.startOnSession] ↔
      (("ms-toolsai.jupyter" : String) = JVSC_EXTENSION_ID ∨
       ("ms-toolsai.jupyter" : String) = POWER_TOYS_EXTENSION_ID)) ∧
    (executeCodeDispatch "ms-toolsai.jupyter" =
        [QueueOp.getOrCreateQueue, QueueOp.queueCode] ↔
      ¬(("ms-toolsai.jupyter" : String) = JVSC_EXTENSION_ID ∨
        ("ms-toolsai.jupyter" : String) = POWER_TOYS_EXTENSION_ID)) :=
  builtin_bypasses_queue "ms-toolsai.jupyter"

/-- One step of the streaming loop preserves the buffer/yield accounting
invariant and establishes the exit conditions. -/
theorem genStep_preserve {α : Type} {s t : GenState α} (hst : GenStep s t)
    (h1 : s.emitted = s.yielded ++ s.buffer) :
    t.emitted = t.yielded ++ t.buffer ∧
    (t.pos = ConsumerPos.exited → t.done = true ∧ t.yielded = t.emitted) := by
  cases hst with
  | emit o s hd hp =>
      refine ⟨?_, ?_⟩
      · show s.emitted ++ [o] = s.yielded ++ (s.buffer ++ [o])
        rw [h1, List.append_assoc]
      · intro hpe
        have hw : s.pos = ConsumerPos.exited := hpe
        rw [hp] at hw
        exact absurd hw (by decide)
  | settle s hp =>
      refine ⟨h1, ?_⟩
      intro hpe
      have hw : s.pos = ConsumerPos.exited := hpe
      rw [hp] at hw
      exact absurd hw (by decide)
  | consumeYield o rest s hb hp =>
      refine ⟨?_, ?_⟩
      · show s.emitted = (s.yielded ++ [o]) ++ rest
        rw [h1, hb, List.append_assoc]
        rfl
      · intro hpe
        have hw : s.pos = ConsumerPos.exited := hpe
        rw [hp] at hw
        exact absurd hw (by decide)
  | exitLoop s hb hd hp =>
      have hy : s.emitted = s.yielded := by
        rw [h1, hb, List.append_nil]
      refine ⟨?_, ?_⟩
      · show s.emitted = s.yielded ++ s.buffer
        exact h1
      · intro _
        exact ⟨hd, hy.symm⟩

/-- C6: in every state of the `executeCode` streaming loop reachable under
any interleaving of emission, settlement and consumption, the emission
history equals the yielded deltas followed by the still-buffered ones (so
deltas are yielded exactly once, in emission order, none dropped), and if
the generator has returned then the result promise had settled and every
emitted delta had been yielded. -/
theorem executeCode_stream_order {α : Type} (s : GenState α)
    (h : GenReach s) :
    s.emitted = s.yielded ++ s.buffer ∧
    (s.pos = ConsumerPos.exited →
      s.done = true ∧ s.yielded = s.emitted) := by
  induction h with
  | init =>
      refine ⟨rfl, ?_⟩
      intro hp
      have hw : ConsumerPos.waiting = ConsumerPos.exited := hp
      exact absurd hw (by decide)
  | step hs hst ih => exact genStep_preserve hst ih.1

/-- C6 theorem instantiated at the run that emits delta `0`, settles,
yields the delta and exits. -/
theorem executeCode_stream_order_witness :
    genFinalExample.emitted = genFinalExample.yielded ++ genFinalExample.buffer ∧
    (genFinalExample.pos = ConsumerPos.exited →
      genFinalExample.done = true ∧
      genFinalExample.yielded = genFinalExample.emitted) :=
  executeCode_stream_order genFinalExample
    (GenReach.step
      (GenReach.step
        (GenReach.step
          (GenReach.step GenReach.init
            (GenStep.emit 0 (initGen Nat) rfl rfl))
          (GenStep.settle _ rfl))
        (GenStep.consumeYield 0 [] _ rfl rfl))
      (GenStep.exitLoop _ rfl rfl rfl))

/-- C10: the visible execution count is reset to 0 by every
started/restarted event no matter what preceded it; a cell-idle
state-change event for this notebook carrying a (truthy) execution order
raises it to the maximum of its current value and that order; all other
events leave it unchanged; and across any stretch of events containing no
started/restarted event it never decreases. -/
theorem executionCount_reset_mono (c ord : Nat) (evs : List KernelEvent)
    (m idle : Bool)
    (hnr : ∀ e ∈ evs,
      e ≠ KernelEvent.started ∧ e ≠ KernelEvent.restarted) :
    runCount c (evs ++ [KernelEvent.started]) = 0 ∧
    runCount c (evs ++ [KernelEvent.restarted]) = 0 ∧
    stepCount c (KernelEvent.cellStateChange m idle ord) =
      (if m && idle && ord != 0 then max c ord else c) ∧
    stepCount c KernelEvent.other = c ∧
    c ≤ runCount c evs := by
  refine ⟨?_, ?_, rfl, rfl, ?_⟩
  · simp [runCount, List.foldl_append, stepCount]
  · simp [runCount, List.foldl_append, stepCount]
  · induction evs generalizing c with
    | nil => exact le_refl c
    | cons e rest ihm =>
        have he := hnr e (List.mem_cons_self e rest)
        have hstep : c ≤ stepCount c e := stepCount_mono c e he.1 he.2
        have htail : stepCount c e ≤ runCount (stepCount c e) rest :=
          ihm (stepCount c e)
            (fun x hx => hnr x (List.mem_cons_of_mem e hx))
        exact le_trans hstep htail

/-- C10 theorem instantiated at count 2 and a single qualifying cell-idle
event with execution order 5. -/
theorem executionCount_reset_mono_witness :
    runCount 2 ([KernelEvent.cellStateChange true true 5] ++
        [KernelEvent.started]) = 0 ∧
    runCount 2 ([KernelEvent.cellStateChange true true 5] ++
        [KernelEvent.restarted]) = 0 ∧
    stepCount 2 (KernelEvent.cellStateChange true true 5) =
      (if true && true && (5 : Nat) != 0 then max 2 5 else 2) ∧
    stepCount 2 KernelEvent.other = 2 ∧
    2 ≤ runCount 2 [KernelEvent.cellStateChange true true 5] :=
  executionCount_reset_mono 2 5 [KernelEvent.cellStateChange true true 5]
    true true (by decide)

end KernelExecution
